import Mathlib

/-!
Verification of the EventChron activity-lifecycle synchronization engine.

The definitions below are a shallow embedding of the TypeScript source:
  * server data model and mutation entry points
    (src/app/api/events/[id]/route.ts,
     src/app/api/events/[id]/activities/[activityId]/route.ts),
  * the client Stop handler and state reconciliation
    (src/app/events/[id]/page.tsx),
  * the client response transformation and export pipeline
    (src/lib/api.ts, src/lib/export.ts, src/lib/utils.ts).

JavaScript numbers arriving in request bodies are modelled as rationals
(`Rat`), with `Math.floor` embedded as `Rat.floor`; stored integer columns
are modelled as `Int`.  An absent (undefined) JSON field is `none`; for
nullable fields `some none` models an explicit JSON null.  NaN is not
representable in the rational model; the only place this matters is
`Number(x) || 0`, which on non-NaN numbers is the identity (0 maps to 0),
so that coercion is dropped where it is the identity and applied as a
`getD 0` where the field may be absent.
-/

namespace EventChron

/-- A stored `Activity` row (prisma model): integer time columns, the three
timing columns nullable, booleans, and a zero-based `order` column. -/
structure StoredActivity where
  id : String
  eventId : String
  activityName : String
  timeAllotted : Int
  timeSpent : Option Int
  extraTimeTaken : Option Int
  timeGained : Option Int
  isCompleted : Bool
  isActive : Bool
  order : Int
  deriving Repr, DecidableEq

/-- A stored `Event` row: owned by exactly one user. -/
structure StoredEvent where
  id : String
  userId : String
  eventName : String
  deriving Repr, DecidableEq

/-- The relational store: an events table and a flat activities table
(each activity holds the `eventId` foreign key). -/
structure Db where
  events : List StoredEvent
  activities : List StoredActivity
  deriving Repr, DecidableEq

/-- Body of `PATCH /api/events/[id]/activities/[activityId]`: any subset of
the fields may be supplied (`none` = field absent from the JSON body). -/
structure PatchBody where
  activityName : Option String
  timeAllotted : Option Rat
  timeSpent : Option (Option Rat)
  extraTimeTaken : Option (Option Rat)
  timeGained : Option (Option Rat)
  isCompleted : Option Bool
  isActive : Option Bool
  order : Option Rat
  deriving Repr, DecidableEq

/-- The errors thrown inside the PATCH transaction (the route encodes them
as thrown `Error` messages and maps them to responses in its catch). -/
inductive PatchError where
  | eventNotFound
  | activityNotFound
  | invalidActivityName
  | invalidTimeAllotted
  deriving Repr, DecidableEq

/-- The `updateData` object the PATCH handler accumulates: only supplied
fields are written.  `timeSpent`/`extraTimeTaken`/`timeGained` may be set
to an explicit null (`some none`). -/
structure UpdateData where
  activityName : Option String
  timeAllotted : Option Int
  timeSpent : Option (Option Int)
  extraTimeTaken : Option (Option Int)
  timeGained : Option (Option Int)
  isCompleted : Option Bool
  isActive : Option Bool
  order : Option Int
  deriving Repr, DecidableEq

/-- JavaScript `String.prototype.trim`: drop whitespace from both ends
(embedded over the character list so that it evaluates by reduction). -/
def jsTrim (s : String) : String :=
  ⟨((s.data.dropWhile Char.isWhitespace).reverse.dropWhile Char.isWhitespace).reverse⟩

/-- `body.activityName !== undefined`: must be a string with non-empty
trim, else `INVALID_ACTIVITY_NAME` is thrown; the trimmed name is stored. -/
def checkName : Option String → Except PatchError (Option String)
  | none => .ok none
  | some s => if jsTrim s = "" then .error .invalidActivityName else .ok (some (jsTrim s))

/-- `body.timeAllotted !== undefined`: `Math.floor(Number(x) || 0)` must be
non-negative, else `INVALID_TIME_ALLOTTED` is thrown. -/
def checkAllotted : Option Rat → Except PatchError (Option Int)
  | none => .ok none
  | some q => if q.floor < 0 then .error .invalidTimeAllotted else .ok (some q.floor)

/-- `x != null ? Math.floor(Number(x)) : null` for the nullable time fields:
the value is floored but its sign is never checked. -/
def flooredNullable : Option (Option Rat) → Option (Option Int)
  | none => none
  | some none => some none
  | some (some q) => some (some q.floor)

/-- Lines 73-124 of the PATCH handler minus the `updateMany` side effect:
build `updateData` from the supplied fields, throwing on an invalid name or
a negative allotted time.  Booleans are coerced with `=== true`. -/
def buildUpdateData (body : PatchBody) : Except PatchError UpdateData :=
  match checkName body.activityName, checkAllotted body.timeAllotted with
  | .error e, _ => .error e
  | .ok _, .error e => .error e
  | .ok n, .ok t =>
      .ok { activityName := n
            timeAllotted := t
            timeSpent := flooredNullable body.timeSpent
            extraTimeTaken := flooredNullable body.extraTimeTaken
            timeGained := flooredNullable body.timeGained
            isCompleted := body.isCompleted.map (fun b => b == true)
            isActive := body.isActive.map (fun b => b == true)
            order := body.order.map (fun q => q.floor) }

/-- `tx.activity.update({ where: { id }, data: updateData })`: overwrite
exactly the supplied fields of a row. -/
def applyUpdate (ud : UpdateData) (a : StoredActivity) : StoredActivity :=
  { a with
    activityName := ud.activityName.getD a.activityName
    timeAllotted := ud.timeAllotted.getD a.timeAllotted
    timeSpent := ud.timeSpent.getD a.timeSpent
    extraTimeTaken := ud.extraTimeTaken.getD a.extraTimeTaken
    timeGained := ud.timeGained.getD a.timeGained
    isCompleted := ud.isCompleted.getD a.isCompleted
    isActive := ud.isActive.getD a.isActive
    order := ud.order.getD a.order }

/-- The `updateMany` at lines 111-118: every activity of the event other
than the target that is currently active is set inactive. -/
def demoteOthers (eventId activityId : String) (acts : List StoredActivity) :
    List StoredActivity :=
  acts.map (fun a =>
    if a.eventId == eventId && a.id != activityId && a.isActive then
      { a with isActive := false }
    else a)

/-- The writes of the PATCH transaction: the conditional `updateMany`
(only when `body.isActive === true`) followed by the single-row update. -/
def patchedActivities (acts : List StoredActivity) (eventId activityId : String)
    (body : PatchBody) (ud : UpdateData) : List StoredActivity :=
  let acts1 := if body.isActive = some true then demoteOthers eventId activityId acts else acts
  acts1.map (fun a => if a.id == activityId then applyUpdate ud a else a)

/-- The PATCH transaction (route.ts lines 43-143): verify the event exists
and is owned by the caller (both failures are `EVENT_NOT_FOUND`), verify
the activity exists and belongs to the event (both `ACTIVITY_NOT_FOUND`),
build `updateData`, run the conditional deactivation and the update.  An
error aborts the transaction, so the store is unchanged on `.error`. -/
def patchActivity (db : Db) (userId eventId activityId : String) (body : PatchBody) :
    Except PatchError Db :=
  match db.events.find? (fun ev => ev.id == eventId) with
  | none => .error .eventNotFound
  | some ev =>
    if ev.userId ≠ userId then .error .eventNotFound
    else
      match db.activities.find? (fun a => a.id == activityId) with
      | none => .error .activityNotFound
      | some existing =>
        if existing.eventId ≠ eventId then .error .activityNotFound
        else
          match buildUpdateData body with
          | .error e => .error e
          | .ok ud =>
              .ok { db with activities := patchedActivities db.activities eventId activityId body ud }

/-- The catch block of the PATCH handler: map the transaction outcome to an
HTTP status and response body.  On success the route returns the freshly
loaded event document (status 200); its serialization is abstracted. -/
def patchResponse (r : Except PatchError Db) : Nat × String :=
  match r with
  | .ok _ => (200, "event")
  | .error .eventNotFound => (404, "Event not found")
  | .error .activityNotFound => (404, "Activity not found")
  | .error .invalidActivityName => (400, "Activity name must be a non-empty string")
  | .error .invalidTimeAllotted => (400, "Time allotted must be a non-negative number")

/-- One entry of the `activities` array in a `PUT /api/events/[id]` body.
Every field may be absent; the handler coerces rather than validates. -/
structure PutBodyActivity where
  activityName : Option String
  timeAllotted : Option Rat
  timeSpent : Option (Option Rat)
  extraTimeTaken : Option (Option Rat)
  timeGained : Option (Option Rat)
  isCompleted : Option Bool
  isActive : Option Bool
  deriving Repr, DecidableEq

/-- Body of `PUT /api/events/[id]` (bulk replace).  `logoUrl`,
`logoAlignment` and `timerGradient` are handled by the same route but are
never rejected and are irrelevant to the claims, so they are omitted;
`activities = some l` models a body whose `activities` field is present
and is an array.  JavaScript date parsing is external, so a supplied
`eventDate` is modelled by its parse outcome: `some none` is a value whose
`new Date(x).getTime()` is NaN, `some (some t)` one that parses to the
timestamp `t`. -/
structure PutBody where
  eventName : Option String
  eventDate : Option (Option Int)
  activities : Option (List PutBodyActivity)
  deriving Repr, DecidableEq

/-- Failures of the PUT handler relevant to the modelled fields: an empty
event name or an unparseable event date is rejected before the
transaction, and inside the transaction a missing or foreign-owned event
throws `EVENT_NOT_FOUND`. -/
inductive PutError where
  | invalidEventName
  | invalidEventDate
  | eventNotFound
  deriving Repr, DecidableEq

/-- JavaScript `Array.prototype.map((a, index) => f(index, a))`, starting
from index `i` (the handler maps the supplied list with its index). -/
def jsMapIdxFrom (f : Nat → α → β) : Nat → List α → List β
  | _, [] => []
  | i, a :: rest => f i a :: jsMapIdxFrom f (i + 1) rest

/-- The `create` mapping of the bulk replace (route.ts lines 134-143):
name coerced via `String(x || '').trim() || 'Activity'`, times floored
(`Number(x) || 0` for the allotted time, nullable floor for the rest),
booleans coerced with `=== true`, and `order` assigned from list position.
The row id is generated by the database; fresh ids are modelled from the
event id and the position. -/
def createActivity (eventId : String) (index : Nat) (a : PutBodyActivity) :
    StoredActivity :=
  { id := eventId ++ "#created#" ++ toString index
    eventId := eventId
    activityName :=
      let n := jsTrim (a.activityName.getD "")
      if n = "" then "Activity" else n
    timeAllotted := (a.timeAllotted.getD 0).floor
    timeSpent :=
      match a.timeSpent with
      | some (some q) => some q.floor
      | _ => none
    extraTimeTaken :=
      match a.extraTimeTaken with
      | some (some q) => some q.floor
      | _ => none
    timeGained :=
      match a.timeGained with
      | some (some q) => some q.floor
      | _ => none
    isCompleted := a.isCompleted == some true
    isActive := a.isActive == some true
    order := (index : Int) }

/-- `eventName !== undefined` in the PUT body: must be a string with a
non-empty trim, else a 400 response is produced before the transaction. -/
def checkEventName : Option String → Except PutError (Option String)
  | none => .ok none
  | some s => if jsTrim s = "" then .error .invalidEventName else .ok (some (jsTrim s))

/-- `eventDate !== undefined` in the PUT body (route.ts lines 88-94):
`new Date(eventDate).getTime()` must not be NaN, else a 400 response is
produced before the transaction; the parsed date is stored. -/
def checkEventDate : Option (Option Int) → Except PutError (Option Int)
  | none => .ok none
  | some none => .error .invalidEventDate
  | some (some t) => .ok (some t)

/-- The PUT handler (route.ts lines 48-159): validate the supplied event
name and event date before the transaction; inside the transaction verify
existence and ownership (one `EVENT_NOT_FOUND` for both), and when an
activities array is supplied delete every activity of the event and
recreate the set from the supplied list.  An error aborts the
transaction. -/
def putEvent (db : Db) (userId eventId : String) (body : PutBody) :
    Except PutError Db :=
  match checkEventName body.eventName with
  | .error e => .error e
  | .ok newName =>
    match checkEventDate body.eventDate with
    | .error e => .error e
    | .ok _newDate =>
      -- the parsed date is written to the event's date column, which no
      -- claim observes; the stored column is not modelled
      match db.events.find? (fun ev => ev.id == eventId) with
      | none => .error .eventNotFound
      | some ev =>
        if ev.userId ≠ userId then .error .eventNotFound
        else
          let acts :=
            match body.activities with
            | none => db.activities
            | some l =>
                db.activities.filter (fun a => a.eventId != eventId)
                  ++ jsMapIdxFrom (createActivity eventId) 0 l
          let events := db.events.map (fun e =>
            if e.id == eventId then { e with eventName := newName.getD e.eventName } else e)
          .ok { events := events, activities := acts }

/-- PUT responses: the name and date validations answer 400 before the
transaction, the transaction's `EVENT_NOT_FOUND` maps to 404, success
returns the updated event document (status 200, serialization
abstracted). -/
def putResponse (r : Except PutError Db) : Nat × String :=
  match r with
  | .ok _ => (200, "event")
  | .error .eventNotFound => (404, "Event not found")
  | .error .invalidEventName => (400, "Event name must be a non-empty string")
  | .error .invalidEventDate => (400, "Invalid event date")

/-- Client `Activity` (lib/types.ts): the three timing fields and the two
booleans are optional in TypeScript; the booleans are only ever used in
truthy position, so `undefined` and `false` are identified. -/
structure ClientActivity where
  id : String
  activityName : String
  timeAllotted : Int
  timeSpent : Option Int
  extraTimeTaken : Option Int
  timeGained : Option Int
  isCompleted : Bool
  isActive : Bool
  deriving Repr, DecidableEq

/-- Client `Event` (lib/types.ts), restricted to the fields the claims
touch. -/
structure ClientEvent where
  id : String
  eventName : String
  eventDate : String
  activities : List ClientActivity
  deriving Repr, DecidableEq

/-- `x || undefined` on a nullable integer column (lib/api.ts lines 28-30):
null stays undefined, and a stored 0 is falsy, so it is also coerced to
undefined. -/
def jsFalsyToUndefined : Option Int → Option Int
  | none => none
  | some t => if t = 0 then none else some t

/-- `transformEvent`'s per-activity mapping (lib/api.ts lines 24-33): the
raw database row is coerced to the client shape; `timeSpent`,
`extraTimeTaken` and `timeGained` go through `x || undefined`. -/
def transformActivity (a : StoredActivity) : ClientActivity :=
  { id := a.id
    activityName := a.activityName
    timeAllotted := a.timeAllotted
    timeSpent := jsFalsyToUndefined a.timeSpent
    extraTimeTaken := jsFalsyToUndefined a.extraTimeTaken
    timeGained := jsFalsyToUndefined a.timeGained
    isCompleted := a.isCompleted
    isActive := a.isActive }

/-- `formatTimeReadable` (lib/utils.ts): JavaScript `Math.floor` on a real
quotient of integers is floor division, and `%` keeps the dividend's sign
(`Int.tmod`). -/
def formatTimeReadable (seconds : Int) : String :=
  let hours := Int.fdiv seconds 3600
  let minutes := Int.fdiv (Int.tmod seconds 3600) 60
  let secs := Int.tmod seconds 60
  let parts : List String := []
  let parts := if hours > 0 then
      parts ++ [toString hours ++ (if hours = 1 then " hour" else " hours")] else parts
  let parts := if minutes > 0 then
      parts ++ [toString minutes ++ (if minutes = 1 then " minute" else " minutes")] else parts
  let parts := if secs > 0 || parts.isEmpty then
      parts ++ [toString secs ++ (if secs = 1 then " second" else " seconds")] else parts
  String.intercalate " " parts

/-- One row of the export (lib/types.ts `ActivityResult`): all fields are
already formatted strings. -/
structure ActivityResult where
  activityName : String
  timeAllotted : String
  timeSpent : String
  extraTimeTaken : String
  timeGained : String
  date : String
  deriving Repr, DecidableEq

/-- `convertActivitiesToResults` (lib/export.ts lines 4-29): keep only
activities that are completed and have a defined `timeSpent`, then
recompute the over/under split and format every field. -/
def convertActivitiesToResults (activities : List ClientActivity) (eventDate : String) :
    List ActivityResult :=
  (activities.filter (fun a => a.isCompleted && a.timeSpent.isSome)).map (fun activity =>
    let timeSpent := activity.timeSpent.getD 0
    let timeAllotted := activity.timeAllotted
    let extraTimeTaken := if timeSpent > timeAllotted then timeSpent - timeAllotted else 0
    let timeGained := if timeSpent > timeAllotted then 0 else timeAllotted - timeSpent
    { activityName := activity.activityName
      timeAllotted := formatTimeReadable timeAllotted
      timeSpent := formatTimeReadable timeSpent
      extraTimeTaken := formatTimeReadable extraTimeTaken
      timeGained := formatTimeReadable timeGained
      date := eventDate })

/-- The per-activity update of `handleActivityStop` (events/[id]/page.tsx
lines 144-159): the elapsed time is recorded, the over/under split is
computed, and the activity is completed and deactivated. -/
def stopUpdate (timeSpent : Int) (a : ClientActivity) : ClientActivity :=
  let extraTimeTaken : Int :=
    if timeSpent > a.timeAllotted then timeSpent - a.timeAllotted else 0
  let timeGained : Int :=
    if timeSpent ≤ a.timeAllotted then a.timeAllotted - timeSpent else 0
  { a with
    timeSpent := some timeSpent
    extraTimeTaken := some extraTimeTaken
    timeGained := some timeGained
    isCompleted := true
    isActive := false }

/-- `event.activities.map((a, idx) => idx === currentActivityIndex ? ... : a)`. -/
def stopActivities (acts : List ClientActivity) (idx : Nat) (timeSpent : Int) :
    List ClientActivity :=
  jsMapIdxFrom (fun i a => if i = idx then stopUpdate timeSpent a else a) 0 acts

/-- The optimistic event state applied by `setEvent(optimisticEvent)`
before the server round trip. -/
def optimisticStopState (event : ClientEvent) (idx : Nat) (timeSpent : Int) : ClientEvent :=
  { event with activities := stopActivities event.activities idx timeSpent }

/-- Outcome of the `updateEvent` dispatch as seen by the client: either
the confirmed event document, or a thrown error.  The catch block of
`handleActivityStop` does not inspect the error, so all failures collapse
into one case. -/
inductive ServerResult where
  | ok (confirmed : ClientEvent)
  | failed
  deriving Repr, DecidableEq

/-- `handleActivityStop` (events/[id]/page.tsx lines 134-221) as a pair of
event states (transient, final): the guard returns early when there is no
current activity or it is already completed; otherwise the optimistic
state is set first, then on server success the confirmed document replaces
it (`setEvent(updatedEvent)`), and on any failure the catch block runs
`setEvent(event)`, restoring the pre-Stop state, and raises an alert. -/
def handleActivityStopStates (event : ClientEvent) (idx : Nat) (timeSpent : Int)
    (server : ServerResult) : ClientEvent × ClientEvent :=
  match event.activities.get? idx with
  | none => (event, event)
  | some cur =>
    if cur.isCompleted then (event, event)
    else
      let optimistic := optimisticStopState event idx timeSpent
      match server with
      | .ok confirmed => (optimistic, confirmed)
      | .failed => (optimistic, event)

/-- Client sync health indicator (spec §4.2/§4.3). -/
inductive SyncStatus where
  | synced
  | syncing
  | error
  deriving Repr, DecidableEq

/-- Modelled from the spec: one queued Retry Queue item, carrying an
abstract operation/payload identifier and its retry count (§4.3).  The
Retry Queue component is described by the spec but absent from src/ (the
architecture plan only lists "queue failed updates for retry"). -/
structure RetryItem where
  opId : Nat
  retryCount : Nat
  deriving Repr, DecidableEq

/-- Modelled from the spec: the Retry Queue state — the pending items and
the aggregate sync status it surfaces. -/
structure RetryState where
  queue : List RetryItem
  syncStatus : SyncStatus
  deriving Repr, DecidableEq

/-- Modelled from the spec: the retry limit (3 attempts). -/
def retryLimit : Nat := 3

/-- Modelled from the spec: the fixed replay interval (2 seconds). -/
def retryIntervalMs : Nat := 2000

/-- Modelled from the spec: enqueueing a transiently failed operation with
retry count 0 and setting the sync status to error (§4.2 step 4). -/
def enqueueFailed (opId : Nat) (s : RetryState) : RetryState :=
  { queue := s.queue ++ [{ opId := opId, retryCount := 0 }]
    syncStatus := SyncStatus.error }

/-- Modelled from the spec: one tick of the Retry Queue (§4.3).  Items
with `retryCount < 3` are replayed; a successful replay drops its item, a
failed one increments the count and keeps the item unless it has reached
the limit, in which case it is dropped unconditionally.  The sync status
is untouched when nothing was eligible, becomes error when any replay
failed, and synced when every replay succeeded.  Returns the new state and
the op ids replayed in this tick. -/
def retryTick (succeeds : Nat → Bool) (s : RetryState) : RetryState × List Nat :=
  let eligible := s.queue.filter (fun it => it.retryCount < retryLimit)
  let replayed := eligible.map (fun it => it.opId)
  let kept :=
    ((eligible.filter (fun it => !succeeds it.opId)).map
        (fun it => { it with retryCount := it.retryCount + 1 })).filter
      (fun it => it.retryCount < retryLimit)
  let status :=
    if eligible.isEmpty then s.syncStatus
    else if eligible.any (fun it => !succeeds it.opId) then SyncStatus.error
    else SyncStatus.synced
  ({ queue := kept, syncStatus := status }, replayed)

/-- Modelled from the spec: `n` consecutive ticks, with a log of
`(time in ms, op id)` for every replay; tick `k` fires at `k * 2000` ms. -/
def retryRun (succeeds : Nat → Bool) (s : RetryState) : Nat → RetryState × List (Nat × Nat)
  | 0 => (s, [])
  | n + 1 =>
      let prev := retryRun succeeds s n
      let step := retryTick succeeds prev.1
      (step.1, prev.2 ++ step.2.map (fun o => ((n + 1) * retryIntervalMs, o)))

/-- Modelled from the spec: a user-initiated load (manual refresh or
re-navigation) supersedes the queue and resets the sync status (§4.3). -/
def userLoad (_ : RetryState) : RetryState :=
  { queue := [], syncStatus := SyncStatus.synced }

/-! Concrete fixtures used to evaluate the model on explicit inputs. -/

/-- A pending activity of event `e1`. -/
def actOpening : StoredActivity :=
  { id := "a1", eventId := "e1", activityName := "Opening", timeAllotted := 180,
    timeSpent := none, extraTimeTaken := none, timeGained := none,
    isCompleted := false, isActive := false, order := 0 }

/-- The currently running activity of event `e1`. -/
def actSermon : StoredActivity :=
  { id := "a2", eventId := "e1", activityName := "Sermon", timeAllotted := 1200,
    timeSpent := none, extraTimeTaken := none, timeGained := none,
    isCompleted := false, isActive := true, order := 1 }

/-- A completed activity of event `e1`. -/
def actClosing : StoredActivity :=
  { id := "a3", eventId := "e1", activityName := "Closing", timeAllotted := 300,
    timeSpent := some 290, extraTimeTaken := some 0, timeGained := some 10,
    isCompleted := true, isActive := false, order := 2 }

/-- A running activity belonging to another user's event `e2`. -/
def actForeign : StoredActivity :=
  { id := "b1", eventId := "e2", activityName := "Workshop", timeAllotted := 600,
    timeSpent := none, extraTimeTaken := none, timeGained := none,
    isCompleted := false, isActive := true, order := 0 }

/-- Event `e1`, owned by user `u1`. -/
def eventMain : StoredEvent :=
  { id := "e1", userId := "u1", eventName := "Sunday Service" }

/-- Event `e2`, owned by user `u2`. -/
def eventOther : StoredEvent :=
  { id := "e2", userId := "u2", eventName := "Retreat" }

/-- A store with two events of different owners and four activities. -/
def sampleDb : Db :=
  { events := [eventMain, eventOther],
    activities := [actOpening, actSermon, actClosing, actForeign] }

/-- A store that does not contain event `e2` at all. -/
def mainOnlyDb : Db :=
  { events := [eventMain], activities := [actOpening, actSermon, actClosing] }

/-- A PATCH body with every field absent. -/
def emptyPatchBody : PatchBody :=
  { activityName := none, timeAllotted := none, timeSpent := none,
    extraTimeTaken := none, timeGained := none, isCompleted := none,
    isActive := none, order := none }

/-- The PATCH body a Start dispatch sends: only `isActive = true`. -/
def startPatchBody : PatchBody :=
  { emptyPatchBody with isActive := some true }

/-- A PATCH body carrying a negative `timeSpent`. -/
def negSpentPatchBody : PatchBody :=
  { emptyPatchBody with timeSpent := some (some (-150)) }

/-- The store produced by `patchActivity sampleDb "u1" "e1" "a1" startPatchBody`:
the target is activated, the previously running `a2` is demoted, and the
foreign event's activity is untouched. -/
def sampleStartDb : Db :=
  { events := [eventMain, eventOther],
    activities := [{ actOpening with isActive := true },
                   { actSermon with isActive := false }, actClosing, actForeign] }

/-- The store produced by `patchActivity sampleDb "u1" "e1" "a1" negSpentPatchBody`:
the negative value is floored and committed. -/
def negSpentDb : Db :=
  { events := [eventMain, eventOther],
    activities := [{ actOpening with timeSpent := some (-150) },
                   actSermon, actClosing, actForeign] }

/-- A supplied bulk-replace activity marked active. -/
def putActActive (name : String) : PutBodyActivity :=
  { activityName := some name, timeAllotted := some 60, timeSpent := none,
    extraTimeTaken := none, timeGained := none, isCompleted := some false,
    isActive := some true }

/-- A bulk-replace body whose list marks two activities as active. -/
def twoActivePutBody : PutBody :=
  { eventName := none, eventDate := none,
    activities := some [putActActive "First", putActActive "Second"] }

/-- A PUT body with no modelled fields supplied. -/
def emptyPutBody : PutBody :=
  { eventName := none, eventDate := none, activities := none }

/-- A PUT body whose event name trims to the empty string. -/
def emptyNamePutBody : PutBody :=
  { eventName := some "   ", eventDate := none, activities := none }

/-- A PUT body whose event date does not parse (`new Date` yields NaN). -/
def badDatePutBody : PutBody :=
  { eventName := none, eventDate := some none, activities := none }

/-- The store produced by `putEvent sampleDb "u1" "e1" twoActivePutBody`:
both recreated activities of `e1` are committed as running. -/
def bulkReplacedDb : Db :=
  { events := [eventMain, eventOther],
    activities := [actForeign,
      { id := "e1#created#0", eventId := "e1", activityName := "First",
        timeAllotted := 60, timeSpent := none, extraTimeTaken := none,
        timeGained := none, isCompleted := false, isActive := true, order := 0 },
      { id := "e1#created#1", eventId := "e1", activityName := "Second",
        timeAllotted := 60, timeSpent := none, extraTimeTaken := none,
        timeGained := none, isCompleted := false, isActive := true, order := 1 }] }

/-- The client-side running activity of the example scenarios
(allotted 180 seconds). -/
def clientTalk : ClientActivity :=
  { id := "c1", activityName := "Talk", timeAllotted := 180, timeSpent := none,
    extraTimeTaken := none, timeGained := none, isCompleted := false,
    isActive := true }

/-- A second, pending client-side activity. -/
def clientPanel : ClientActivity :=
  { id := "c2", activityName := "Panel", timeAllotted := 600, timeSpent := none,
    extraTimeTaken := none, timeGained := none, isCompleted := false,
    isActive := false }

/-- The client event holding the two activities above. -/
def clientEventFixture : ClientEvent :=
  { id := "e1", eventName := "Conference", eventDate := "2026-01-10",
    activities := [clientTalk, clientPanel] }

/-- A stored row that is completed with a recorded `timeSpent` of 0. -/
def zeroSpentActivity : StoredActivity :=
  { id := "z1", eventId := "e1", activityName := "Lightning", timeAllotted := 60,
    timeSpent := some 0, extraTimeTaken := some 0, timeGained := some 60,
    isCompleted := true, isActive := false, order := 3 }

/-- Exactly one of two integers is nonzero (the spec's phrasing of the
timing identity). -/
def exactlyOneNonzero (x y : Int) : Prop :=
  (x ≠ 0 ∧ y = 0) ∨ (x = 0 ∧ y ≠ 0)

instance (x y : Int) : Decidable (exactlyOneNonzero x y) := by
  unfold exactlyOneNonzero; infer_instance

/-! Helper lemmas. -/

theorem jsMapIdxFrom_get? (f : Nat → α → β) (i j : Nat) (l : List α) :
    (jsMapIdxFrom f i l).get? j = (l.get? j).map (f (i + j)) := by
  induction l generalizing i j with
  | nil => simp [jsMapIdxFrom]
  | cons a rest ih =>
    cases j with
    | zero => simp [jsMapIdxFrom]
    | succ j =>
      have hidx : i + 1 + j = i + (j + 1) := by omega
      simp only [jsMapIdxFrom, List.get?_cons_succ, ih (i + 1) j, hidx]

theorem stopActivities_get? (acts : List ClientActivity) (idx : Nat) (e : Int)
    (a : ClientActivity) (ha : acts.get? idx = some a) :
    (stopActivities acts idx e).get? idx = some (stopUpdate e a) := by
  unfold stopActivities
  rw [jsMapIdxFrom_get?, ha]
  simp

/-! Theorems for the claims. -/

/-- C3: for every Stop with elapsed seconds `e` on the current activity,
the client records `spentSeconds = e`, computes
`extraSeconds = max(0, e - allotted)` and `gainedSeconds = max(0, allotted - e)`
(both zero when `e` equals the allotted time, exactly one nonzero
otherwise), and marks the activity Completed. -/
theorem stop_timing_computation (ev : ClientEvent) (idx : Nat) (e : Int)
    (a : ClientActivity) (ha : ev.activities.get? idx = some a) :
    (optimisticStopState ev idx e).activities.get? idx = some (stopUpdate e a) ∧
    (stopUpdate e a).timeSpent = some e ∧
    (stopUpdate e a).extraTimeTaken = some (max 0 (e - a.timeAllotted)) ∧
    (stopUpdate e a).timeGained = some (max 0 (a.timeAllotted - e)) ∧
    (stopUpdate e a).isCompleted = true ∧
    (e = a.timeAllotted →
      (stopUpdate e a).extraTimeTaken = some 0 ∧ (stopUpdate e a).timeGained = some 0) ∧
    (e ≠ a.timeAllotted →
      exactlyOneNonzero ((stopUpdate e a).extraTimeTaken.getD 0)
        ((stopUpdate e a).timeGained.getD 0)) := by
  refine ⟨stopActivities_get? ev.activities idx e a ha, rfl, ?_, ?_, rfl, ?_, ?_⟩
  · simp only [stopUpdate]
    congr 1
    split <;> omega
  · simp only [stopUpdate]
    congr 1
    split <;> omega
  · intro he
    subst he
    simp [stopUpdate]
  · intro he
    unfold exactlyOneNonzero
    simp only [stopUpdate, Option.getD_some]
    rcases lt_or_gt_of_ne he with h | h
    · right
      constructor
      · simp only [if_neg (by omega : ¬ e > a.timeAllotted)]
      · rw [if_pos (by omega : e ≤ a.timeAllotted)]
        omega
    · left
      constructor
      · rw [if_pos (by omega : e > a.timeAllotted)]
        omega
      · simp only [if_neg (by omega : ¬ e ≤ a.timeAllotted)]

/-- Witness for C3: the spec's example — allotted 180, Stop at elapsed 150
yields spent 150, gained 30, extra 0, Completed. -/
theorem stop_timing_computation_witness :
    (stopUpdate 150 clientTalk).timeSpent = some 150 ∧
    (stopUpdate 150 clientTalk).timeGained = some 30 ∧
    (stopUpdate 150 clientTalk).extraTimeTaken = some 0 ∧
    (stopUpdate 150 clientTalk).isCompleted = true ∧
    (optimisticStopState clientEventFixture 0 150).activities.get? 0
      = some (stopUpdate 150 clientTalk) := by
  obtain ⟨h0, h1, h2, h3, h4, -, -⟩ :=
    stop_timing_computation clientEventFixture 0 150 clientTalk rfl
  refine ⟨h1, ?_, ?_, h4, h0⟩
  · rw [h3]; decide
  · rw [h2]; decide

/-- C4 counterexample: an activity stopped at exactly its allotted time
(allotted = elapsed = 180) is Completed with `extraSeconds = 0` and
`gainedSeconds = 0`, so it is not the case that exactly one of the two is
nonzero. -/
theorem completed_equal_time_counterexample :
    (stopUpdate 180 clientTalk).isCompleted = true ∧
    (stopUpdate 180 clientTalk).timeSpent = some 180 ∧
    (stopUpdate 180 clientTalk).extraTimeTaken = some 0 ∧
    (stopUpdate 180 clientTalk).timeGained = some 0 ∧
    ¬ exactlyOneNonzero ((stopUpdate 180 clientTalk).extraTimeTaken.getD 0)
        ((stopUpdate 180 clientTalk).timeGained.getD 0) := by
  decide

/-- C4 amended: for every activity completed by Stop, at most one of
`extraSeconds` and `gainedSeconds` is nonzero — exactly one iff
`spentSeconds ≠ allottedSeconds` — and
`spentSeconds = allottedSeconds + extraSeconds - gainedSeconds`. -/
theorem completed_timing_identity (a : ClientActivity) (e : Int) :
    (stopUpdate e a).timeSpent.getD 0
      = a.timeAllotted + (stopUpdate e a).extraTimeTaken.getD 0
        - (stopUpdate e a).timeGained.getD 0 ∧
    ¬((stopUpdate e a).extraTimeTaken.getD 0 ≠ 0 ∧
      (stopUpdate e a).timeGained.getD 0 ≠ 0) ∧
    (e ≠ a.timeAllotted ↔
      exactlyOneNonzero ((stopUpdate e a).extraTimeTaken.getD 0)
        ((stopUpdate e a).timeGained.getD 0)) := by
  simp only [stopUpdate, Option.getD_some, exactlyOneNonzero]
  by_cases h : e > a.timeAllotted
  · rw [if_pos h, if_neg (by omega)]
    refine ⟨by omega, by omega, ?_⟩
    constructor
    · intro _; left; exact ⟨by omega, rfl⟩
    · intro _; omega
  · rw [if_neg h, if_pos (by omega)]
    refine ⟨by omega, by omega, ?_⟩
    constructor
    · intro hne; right; exact ⟨rfl, by omega⟩
    · rintro (⟨h1, -⟩ | ⟨-, h2⟩) <;> omega

/-- Witness for C4 amended at allotted 180, elapsed 150. -/
theorem completed_timing_identity_witness :
    (stopUpdate 150 clientTalk).timeSpent.getD 0
      = clientTalk.timeAllotted + (stopUpdate 150 clientTalk).extraTimeTaken.getD 0
        - (stopUpdate 150 clientTalk).timeGained.getD 0 ∧
    ((150 : Int) ≠ clientTalk.timeAllotted ↔
      exactlyOneNonzero ((stopUpdate 150 clientTalk).extraTimeTaken.getD 0)
        ((stopUpdate 150 clientTalk).timeGained.getD 0)) := by
  obtain ⟨h1, -, h3⟩ := completed_timing_identity clientTalk 150
  exact ⟨h1, h3⟩

/-- C5 counterexample: when the Stop dispatch fails (the catch block of
`handleActivityStop` runs), the final state equals the pre-Stop event —
the optimistic locally-stopped state, which differs from it, is reverted
and the target is not Completed — rather than being kept and enqueued. -/
theorem stop_failure_reverts_counterexample :
    (handleActivityStopStates clientEventFixture 0 150 ServerResult.failed).2
      = clientEventFixture ∧
    (handleActivityStopStates clientEventFixture 0 150 ServerResult.failed).1
      ≠ clientEventFixture ∧
    ((handleActivityStopStates clientEventFixture 0 150 ServerResult.failed).2.activities.get?
        0).map (fun a => a.isCompleted) = some false := by
  decide

/-- C5 amended: the client does not classify Stop failures; on every
failure of a Stop dispatch the optimistic state (which was applied
transiently) is reverted — the final state is exactly the pre-Stop event —
and an alert is raised; no retry queue or sync status exists in the
client. -/
theorem stop_failure_reverts (ev : ClientEvent) (idx : Nat) (e : Int) :
    (handleActivityStopStates ev idx e ServerResult.failed).2 = ev ∧
    (∀ a, ev.activities.get? idx = some a → a.isCompleted = false →
      (handleActivityStopStates ev idx e ServerResult.failed).1
        = optimisticStopState ev idx e) := by
  unfold handleActivityStopStates
  cases h : ev.activities.get? idx with
  | none => exact ⟨rfl, fun a ha => by simp [h] at ha⟩
  | some cur =>
    by_cases hc : cur.isCompleted
    · refine ⟨by simp [hc], fun a ha hf => absurd hf ?_⟩
      injection ha with ha2
      rw [← ha2, hc]
      simp
    · exact ⟨by simp [hc], fun a _ _ => by simp [hc]⟩

/-- Witness for C5 amended at the concrete fixture. -/
theorem stop_failure_reverts_witness :
    (handleActivityStopStates clientEventFixture 0 150 ServerResult.failed).2
      = clientEventFixture ∧
    (handleActivityStopStates clientEventFixture 0 150 ServerResult.failed).1
      = optimisticStopState clientEventFixture 0 150 := by
  obtain ⟨h1, h2⟩ := stop_failure_reverts clientEventFixture 0 150
  exact ⟨h1, h2 clientTalk rfl rfl⟩

/-- The Retry Queue state after an always-failing operation's third
replay: the item has been dropped and the sync status is (and stays)
error. -/
def drainedRetryState : RetryState :=
  { queue := [], syncStatus := SyncStatus.error }

theorem retryRun_alwaysFail_three (k : Nat) :
    retryRun (fun _ => false)
        (enqueueFailed k { queue := [], syncStatus := SyncStatus.synced }) 3
      = (drainedRetryState, [(2000, k), (4000, k), (6000, k)]) := rfl

theorem retryTick_drained (succeeds : Nat → Bool) :
    retryTick succeeds drainedRetryState = (drainedRetryState, []) := rfl

theorem retryRun_alwaysFail (k n : Nat) (hn : 3 ≤ n) :
    retryRun (fun _ => false)
        (enqueueFailed k { queue := [], syncStatus := SyncStatus.synced }) n
      = (drainedRetryState, [(2000, k), (4000, k), (6000, k)]) := by
  induction n, hn using Nat.le_induction with
  | base => exact retryRun_alwaysFail_three k
  | succ n hn ih =>
    simp only [retryRun, ih, retryTick_drained, List.map_nil, List.append_nil]

/-- C6: an operation enqueued with retry count 0 whose replays always fail
transiently is replayed exactly three times, at the 2-second ticks
(2000 ms, 4000 ms, 6000 ms), and is then dropped unconditionally; the
aggregate sync status is error and remains error after every further tick,
until a user-initiated load supersedes the queue. -/
theorem retry_bound (k n : Nat) (hn : 3 ≤ n) :
    (retryRun (fun _ => false)
        (enqueueFailed k { queue := [], syncStatus := SyncStatus.synced }) n).2
      = [(retryIntervalMs, k), (2 * retryIntervalMs, k), (3 * retryIntervalMs, k)] ∧
    (retryRun (fun _ => false)
        (enqueueFailed k { queue := [], syncStatus := SyncStatus.synced }) n).1.queue = [] ∧
    (retryRun (fun _ => false)
        (enqueueFailed k { queue := [], syncStatus := SyncStatus.synced }) n).1.syncStatus
      = SyncStatus.error ∧
    (userLoad (retryRun (fun _ => false)
        (enqueueFailed k { queue := [], syncStatus := SyncStatus.synced }) n).1).syncStatus
      = SyncStatus.synced := by
  rw [retryRun_alwaysFail k n hn]
  exact ⟨rfl, rfl, rfl, rfl⟩

/-- Witness for C6 at op id 7 after 5 ticks. -/
theorem retry_bound_witness :
    (retryRun (fun _ => false)
        (enqueueFailed 7 { queue := [], syncStatus := SyncStatus.synced }) 5).2
      = [(retryIntervalMs, 7), (2 * retryIntervalMs, 7), (3 * retryIntervalMs, 7)] ∧
    (retryRun (fun _ => false)
        (enqueueFailed 7 { queue := [], syncStatus := SyncStatus.synced }) 5).1.syncStatus
      = SyncStatus.error := by
  obtain ⟨h1, -, h3, -⟩ := retry_bound 7 5 (by decide)
  exact ⟨h1, h3⟩

/-- C10: `transformEvent` coerces a stored 0 in `timeSpent`,
`extraTimeTaken` or `timeGained` to undefined, and consequently
`convertActivitiesToResults` omits from the exported results any Completed
activity whose recorded `timeSpent` is 0: inserting such an activity
anywhere in the list leaves the results unchanged. -/
theorem zero_timeSpent_omitted_from_results
    (l₁ l₂ : List StoredActivity) (a : StoredActivity) (d : String)
    (_hc : a.isCompleted = true) (h0 : a.timeSpent = some 0) :
    (transformActivity a).timeSpent = none ∧
    (∀ x : StoredActivity, x.extraTimeTaken = some 0 →
      (transformActivity x).extraTimeTaken = none) ∧
    (∀ x : StoredActivity, x.timeGained = some 0 →
      (transformActivity x).timeGained = none) ∧
    convertActivitiesToResults ((l₁ ++ a :: l₂).map transformActivity) d =
      convertActivitiesToResults ((l₁ ++ l₂).map transformActivity) d := by
  have hts : (transformActivity a).timeSpent = none := by
    simp [transformActivity, h0, jsFalsyToUndefined]
  refine ⟨hts, ?_, ?_, ?_⟩
  · intro x hx
    simp [transformActivity, hx, jsFalsyToUndefined]
  · intro x hx
    simp [transformActivity, hx, jsFalsyToUndefined]
  · unfold convertActivitiesToResults
    simp [List.map_append, List.filter_append, List.filter_cons, hts]

/-- Witness for C10: a Completed fixture with `timeSpent = 0` disappears
from the export. -/
theorem zero_timeSpent_omitted_witness :
    (transformActivity zeroSpentActivity).timeSpent = none ∧
    convertActivitiesToResults
        (([actClosing] ++ zeroSpentActivity :: []).map transformActivity) "2026-01-10"
      = convertActivitiesToResults (([actClosing] ++ []).map transformActivity) "2026-01-10" := by
  obtain ⟨h1, -, -, h4⟩ :=
    zero_timeSpent_omitted_from_results [actClosing] [] zeroSpentActivity "2026-01-10" rfl rfl
  exact ⟨h1, h4⟩

/-- C8 counterexample: a bulk-replace request whose body fails a
pre-transaction validation (empty event name, or unparseable event date)
and names a nonexistent event is answered 400, not with the Not Found
response — both checks run before the event lookup.  (Each response is
still identical to the one a foreign-owned event would get, so existence
does not leak.) -/
theorem notfound_uniform_counterexample :
    putResponse (putEvent mainOnlyDb "u1" "e2" emptyNamePutBody)
      = (400, "Event name must be a non-empty string") ∧
    putResponse (putEvent mainOnlyDb "u1" "e2" emptyNamePutBody)
      ≠ (404, "Event not found") ∧
    putResponse (putEvent mainOnlyDb "u1" "e2" badDatePutBody)
      = (400, "Invalid event date") ∧
    putResponse (putEvent mainOnlyDb "u1" "e2" badDatePutBody)
      ≠ (404, "Event not found") := by
  decide

/-- C8 amended: for a nonexistent event and a foreign-owned event the
responses are always identical, so existence never leaks: every PATCH
request is answered exactly `(404, "Event not found")` in both scenarios,
and every PUT request gets equal responses in both scenarios — equal to
`(404, "Event not found")` whenever the body passes the pre-transaction
validations (non-empty trimmed event name, parseable event date), and the
same 400 validation response otherwise. -/
theorem notfound_uniform_responses
    (db1 db2 : Db) (u e aid : String) (pbody : PatchBody) (ubody : PutBody)
    (ev : StoredEvent)
    (h1 : db1.events.find? (fun v => v.id == e) = none)
    (h2 : db2.events.find? (fun v => v.id == e) = some ev)
    (h3 : ev.userId ≠ u) :
    patchResponse (patchActivity db1 u e aid pbody) = (404, "Event not found") ∧
    patchResponse (patchActivity db2 u e aid pbody) = (404, "Event not found") ∧
    putResponse (putEvent db1 u e ubody) = putResponse (putEvent db2 u e ubody) ∧
    ((∀ s, ubody.eventName = some s → jsTrim s ≠ "") →
      ubody.eventDate ≠ some none →
      putResponse (putEvent db1 u e ubody) = (404, "Event not found") ∧
      putResponse (putEvent db2 u e ubody) = (404, "Event not found")) := by
  have hput1 : ∀ nn nd, checkEventName ubody.eventName = .ok nn →
      checkEventDate ubody.eventDate = .ok nd →
      putEvent db1 u e ubody = .error .eventNotFound := by
    intro nn nd hcn hcd
    simp only [putEvent, hcn, hcd, h1]
  have hput2 : ∀ nn nd, checkEventName ubody.eventName = .ok nn →
      checkEventDate ubody.eventDate = .ok nd →
      putEvent db2 u e ubody = .error .eventNotFound := by
    intro nn nd hcn hcd
    simp only [putEvent, hcn, hcd, h2]
    rw [if_pos h3]
  refine ⟨?_, ?_, ?_, ?_⟩
  · simp only [patchActivity, h1]
    rfl
  · simp only [patchActivity, h2]
    rw [if_pos h3]
    rfl
  · cases hcn : checkEventName ubody.eventName with
    | error er => simp only [putEvent, hcn]
    | ok nn =>
      cases hcd : checkEventDate ubody.eventDate with
      | error er => simp only [putEvent, hcn, hcd]
      | ok nd => rw [hput1 nn nd hcn hcd, hput2 nn nd hcn hcd]
  · intro hname hdate
    have hokn : ∃ nn, checkEventName ubody.eventName = .ok nn := by
      cases hn : ubody.eventName with
      | none => exact ⟨none, rfl⟩
      | some s =>
        refine ⟨some (jsTrim s), ?_⟩
        simp [checkEventName, hname s hn]
    have hokd : ∃ nd, checkEventDate ubody.eventDate = .ok nd := by
      cases hd : ubody.eventDate with
      | none => exact ⟨none, rfl⟩
      | some d =>
        cases d with
        | none => exact absurd hd hdate
        | some t => exact ⟨some t, rfl⟩
    obtain ⟨nn, hcn⟩ := hokn
    obtain ⟨nd, hcd⟩ := hokd
    rw [hput1 nn nd hcn hcd, hput2 nn nd hcn hcd]
    exact ⟨rfl, rfl⟩

/-- Witness for C8 amended: `e2` missing from one store and
foreign-owned in the other, probed with empty bodies. -/
theorem notfound_uniform_responses_witness :
    patchResponse (patchActivity mainOnlyDb "u1" "e2" "a1" emptyPatchBody)
      = (404, "Event not found") ∧
    patchResponse (patchActivity sampleDb "u1" "e2" "a1" emptyPatchBody)
      = (404, "Event not found") ∧
    putResponse (putEvent mainOnlyDb "u1" "e2" emptyPutBody)
      = putResponse (putEvent sampleDb "u1" "e2" emptyPutBody) ∧
    putResponse (putEvent mainOnlyDb "u1" "e2" emptyPutBody)
      = (404, "Event not found") := by
  obtain ⟨w1, w2, w3, w4⟩ :=
    notfound_uniform_responses mainOnlyDb sampleDb "u1" "e2" "a1" emptyPatchBody
      emptyPutBody eventOther (by decide) (by decide) (by decide)
  exact ⟨w1, w2, w3, (w4 (fun s hs => by cases hs) (by decide)).1⟩

theorem buildUpdateData_ok_of_none (body : PatchBody)
    (hname : body.activityName = none) (hallot : body.timeAllotted = none) :
    buildUpdateData body = Except.ok
      { activityName := none, timeAllotted := none,
        timeSpent := flooredNullable body.timeSpent,
        extraTimeTaken := flooredNullable body.extraTimeTaken,
        timeGained := flooredNullable body.timeGained,
        isCompleted := body.isCompleted.map (fun b => b == true),
        isActive := body.isActive.map (fun b => b == true),
        order := body.order.map (fun q => q.floor) } := by
  unfold buildUpdateData
  rw [hname, hallot]
  rfl

/-- C7 counterexample: a partial update supplying `timeSpent = -150` on a
valid event and activity commits successfully and stores the negative
value — the violation is not rejected. -/
theorem patch_negative_time_committed_counterexample :
    patchActivity sampleDb "u1" "e1" "a1" negSpentPatchBody = Except.ok negSpentDb ∧
    negSpentDb.activities.head?.map (fun a => a.timeSpent) = some (some (-150)) := by
  constructor
  · rfl
  · rfl

/-- C7 amended: the only field-level validations of the partial update are
the activity name (non-empty trim, else a permanent 400 with nothing
committed) and `timeAllotted` (floored value must be non-negative);
`timeSpent` — and likewise `extraTimeTaken`/`timeGained` — is only floored
and committed without a sign check, so negative values are accepted.  (The
bulk replace in events/[id]/route.ts coerces all activity fields instead
of validating them.) -/
theorem patch_validation_scope :
    (∀ (db : Db) (u e aid : String) (body : PatchBody) (ev : StoredEvent)
        (x : StoredActivity) (s : String),
        db.events.find? (fun v => v.id == e) = some ev → ev.userId = u →
        db.activities.find? (fun a => a.id == aid) = some x → x.eventId = e →
        body.activityName = some s → jsTrim s = "" →
        patchActivity db u e aid body = Except.error PatchError.invalidActivityName) ∧
    (∀ (db : Db) (u e aid : String) (body : PatchBody) (ev : StoredEvent)
        (x : StoredActivity) (q : Rat),
        db.events.find? (fun v => v.id == e) = some ev → ev.userId = u →
        db.activities.find? (fun a => a.id == aid) = some x → x.eventId = e →
        body.activityName = none → body.timeAllotted = some q → q.floor < 0 →
        patchActivity db u e aid body = Except.error PatchError.invalidTimeAllotted) ∧
    (∀ (db : Db) (u e aid : String) (body : PatchBody) (ev : StoredEvent)
        (x : StoredActivity) (q : Rat),
        db.events.find? (fun v => v.id == e) = some ev → ev.userId = u →
        db.activities.find? (fun a => a.id == aid) = some x → x.eventId = e →
        body.activityName = none → body.timeAllotted = none →
        body.timeSpent = some (some q) → body.isActive = none →
        ∃ db2, patchActivity db u e aid body = Except.ok db2 ∧
          ∃ a2 ∈ db2.activities, a2.id = aid ∧ a2.timeSpent = some q.floor) := by
  refine ⟨?_, ?_, ?_⟩
  · intro db u e aid body ev x s hfe hown hfa hxe hname htrim
    have hbu : buildUpdateData body = Except.error PatchError.invalidActivityName := by
      unfold buildUpdateData
      rw [hname]
      simp only [checkName]
      rw [if_pos htrim]
    simp only [patchActivity, hfe, hfa, hbu]
    rw [if_neg (by simp [hown]), if_neg (by simp [hxe])]
  · intro db u e aid body ev x q hfe hown hfa hxe hname hq hlt
    have hbu : buildUpdateData body = Except.error PatchError.invalidTimeAllotted := by
      unfold buildUpdateData
      rw [hname, hq]
      simp only [checkAllotted]
      rw [if_pos hlt]
      rfl
    simp only [patchActivity, hfe, hfa, hbu]
    rw [if_neg (by simp [hown]), if_neg (by simp [hxe])]
  · intro db u e aid body ev x q hfe hown hfa hxe hname hallot hspent hisact
    have hbeq : (x.id == aid) = true := by
      have h := List.find?_some hfa
      exact h
    have hxmem : x ∈ db.activities := List.mem_of_find?_eq_some hfa
    have hbu := buildUpdateData_ok_of_none body hname hallot
    rw [hspent] at hbu
    set ud : UpdateData :=
      { activityName := none, timeAllotted := none,
        timeSpent := flooredNullable (some (some q)),
        extraTimeTaken := flooredNullable body.extraTimeTaken,
        timeGained := flooredNullable body.timeGained,
        isCompleted := body.isCompleted.map (fun b => b == true),
        isActive := body.isActive.map (fun b => b == true),
        order := body.order.map (fun r => r.floor) } with hud
    refine ⟨{ events := db.events,
              activities := patchedActivities db.activities e aid body ud }, ?_, ?_⟩
    · simp only [patchActivity, hfe, hfa, hbu]
      rw [if_neg (by simp [hown]), if_neg (by simp [hxe])]
    · refine ⟨applyUpdate ud x, ?_, ?_, ?_⟩
      · unfold patchedActivities
        rw [if_neg (by simp [hisact])]
        have hm := List.mem_map_of_mem
          (fun a => if (a.id == aid) = true then applyUpdate ud a else a) hxmem
        have hm2 : applyUpdate ud x ∈
            List.map (fun a => if (a.id == aid) = true then applyUpdate ud a else a)
              db.activities := by
          simpa [hbeq] using hm
        exact hm2
      · exact eq_of_beq hbeq
      · rw [hud]
        simp [applyUpdate, flooredNullable]

/-- Witness for C7 amended: an empty-trim name is rejected, a negative
allotted time is rejected, and a negative `timeSpent` is committed. -/
theorem patch_validation_scope_witness :
    patchActivity sampleDb "u1" "e1" "a1" { emptyPatchBody with activityName := some "   " }
      = Except.error PatchError.invalidActivityName ∧
    patchActivity sampleDb "u1" "e1" "a1" { emptyPatchBody with timeAllotted := some (-3) }
      = Except.error PatchError.invalidTimeAllotted ∧
    ∃ db2, patchActivity sampleDb "u1" "e1" "a1" negSpentPatchBody = Except.ok db2 ∧
      ∃ a2 ∈ db2.activities, a2.id = "a1" ∧ a2.timeSpent = some ((-150 : Rat).floor) := by
  obtain ⟨w1, w2, w3⟩ := patch_validation_scope
  refine ⟨?_, ?_, ?_⟩
  · exact w1 sampleDb "u1" "e1" "a1" _ eventMain actOpening "   "
      (by decide) rfl (by decide) rfl rfl (by decide)
  · exact w2 sampleDb "u1" "e1" "a1" _ eventMain actOpening (-3)
      (by decide) rfl (by decide) rfl rfl rfl (by decide)
  · exact w3 sampleDb "u1" "e1" "a1" negSpentPatchBody eventMain actOpening (-150)
      (by decide) rfl (by decide) rfl rfl rfl rfl rfl

theorem jsMapIdxFrom_createActivity_orders (e : String) (l : List PutBodyActivity) :
    ∀ i, (jsMapIdxFrom (createActivity e) i l).map (fun a => a.order)
      = (List.range' i l.length).map (fun n => (n : Int)) := by
  induction l with
  | nil => intro i; rfl
  | cons a rest ih =>
    intro i
    simp only [jsMapIdxFrom, List.map_cons, List.length_cons, List.range'_succ, ih (i + 1)]
    rfl

theorem jsMapIdxFrom_createActivity_eventId (e : String) (l : List PutBodyActivity) :
    ∀ i, ∀ a ∈ jsMapIdxFrom (createActivity e) i l, a.eventId = e := by
  induction l with
  | nil =>
    intro i a ha
    cases ha
  | cons b rest ih =>
    intro i a ha
    rcases List.mem_cons.1 ha with h | h
    · rw [h]
      rfl
    · exact ih (i + 1) a h

theorem jsMapIdxFrom_createActivity_countActive (e : String) (l : List PutBodyActivity) :
    ∀ i, (jsMapIdxFrom (createActivity e) i l).countP
        (fun a => a.eventId == e && a.isActive)
      = l.countP (fun a => a.isActive == some true) := by
  induction l with
  | nil => intro i; rfl
  | cons b rest ih =>
    intro i
    simp only [jsMapIdxFrom, List.countP_cons, ih (i + 1)]
    congr 1
    simp [createActivity]

theorem putEvent_ok_activities (db : Db) (u e : String) (body : PutBody)
    (l : List PutBodyActivity) (db2 : Db)
    (hacts : body.activities = some l)
    (hok : putEvent db u e body = Except.ok db2) :
    db2.activities = db.activities.filter (fun a => a.eventId != e)
      ++ jsMapIdxFrom (createActivity e) 0 l := by
  unfold putEvent at hok
  cases hcn : checkEventName body.eventName with
  | error er =>
    simp only [hcn] at hok
    exact Except.noConfusion hok
  | ok nn =>
    simp only [hcn] at hok
    cases hcd : checkEventDate body.eventDate with
    | error er =>
      simp only [hcd] at hok
      exact Except.noConfusion hok
    | ok nd =>
      simp only [hcd] at hok
      cases hfe : db.events.find? (fun v => v.id == e) with
      | none =>
        simp only [hfe] at hok
        exact Except.noConfusion hok
      | some ev =>
        simp only [hfe] at hok
        by_cases hu : ev.userId ≠ u
        · rw [if_pos hu] at hok
          exact Except.noConfusion hok
        · rw [if_neg hu, hacts] at hok
          injection hok with h2
          rw [← h2]

/-- C2 counterexample: a bulk replace whose supplied list marks two
activities active commits both as Running — the committed state of event
`e1` has two activities with `isActive = true`. -/
theorem bulk_replace_two_running_counterexample :
    putEvent sampleDb "u1" "e1" twoActivePutBody = Except.ok bulkReplacedDb ∧
    bulkReplacedDb.activities.countP (fun a => a.eventId == "e1" && a.isActive) = 2 := by
  exact ⟨rfl, rfl⟩

/-- C2 amended: the bulk replace copies the client-supplied `isActive`
flags verbatim (coerced with `=== true`), so after a committed bulk
replace the number of Running activities of the event equals the number of
supplied entries marked active; at most one Running holds after bulk
replace only when the client supplies at most one active entry (the
invariant is enforced only by the partial-update path). -/
theorem bulk_replace_running_count (db : Db) (u e : String) (body : PutBody)
    (l : List PutBodyActivity) (db2 : Db)
    (hacts : body.activities = some l)
    (hok : putEvent db u e body = Except.ok db2) :
    db2.activities.countP (fun a => a.eventId == e && a.isActive)
      = l.countP (fun a => a.isActive == some true) := by
  rw [putEvent_ok_activities db u e body l db2 hacts hok, List.countP_append]
  have h1 : (db.activities.filter (fun a => a.eventId != e)).countP
      (fun a => a.eventId == e && a.isActive) = 0 := by
    rw [List.countP_eq_zero]
    intro a ha
    have hne := List.of_mem_filter ha
    simp only [bne, Bool.not_eq_true'] at hne
    simp [hne]
  rw [h1, Nat.zero_add, jsMapIdxFrom_createActivity_countActive e l 0]

/-- Witness for C2 amended at the two-active bulk replace. -/
theorem bulk_replace_running_count_witness :
    bulkReplacedDb.activities.countP (fun a => a.eventId == "e1" && a.isActive)
      = [putActActive "First", putActActive "Second"].countP
          (fun a => a.isActive == some true) := by
  exact bulk_replace_running_count sampleDb "u1" "e1" twoActivePutBody
    [putActActive "First", putActActive "Second"] bulkReplacedDb rfl rfl

/-- C9: after a committed bulk replace with `n` supplied activities, the
stored `order` values of the event's activities are exactly `0, …, n-1`
in list order — assigned from list position, with no gaps and no
duplicates. -/
theorem bulk_replace_order_integrity (db : Db) (u e : String) (body : PutBody)
    (l : List PutBodyActivity) (db2 : Db)
    (hacts : body.activities = some l)
    (hok : putEvent db u e body = Except.ok db2) :
    (db2.activities.filter (fun a => a.eventId == e)).map (fun a => a.order)
      = (List.range l.length).map (fun n => (n : Int)) := by
  rw [putEvent_ok_activities db u e body l db2 hacts hok, List.filter_append]
  have h1 : (db.activities.filter (fun a => a.eventId != e)).filter
      (fun a => a.eventId == e) = [] := by
    rw [List.filter_eq_nil_iff]
    intro a ha
    have hne := List.of_mem_filter ha
    simp only [bne, Bool.not_eq_true'] at hne
    simp [hne]
  have h2 : (jsMapIdxFrom (createActivity e) 0 l).filter (fun a => a.eventId == e)
      = jsMapIdxFrom (createActivity e) 0 l := by
    rw [List.filter_eq_self]
    intro a ha
    have := jsMapIdxFrom_createActivity_eventId e l 0 a ha
    simp [this]
  rw [h1, h2, List.nil_append, jsMapIdxFrom_createActivity_orders e l 0,
    List.range_eq_range']

/-- Witness for C9: the two-element bulk replace stores orders `[0, 1]`. -/
theorem bulk_replace_order_integrity_witness :
    (bulkReplacedDb.activities.filter (fun a => a.eventId == "e1")).map (fun a => a.order)
      = [(0 : Int), 1] := by
  have h := bulk_replace_order_integrity sampleDb "u1" "e1" twoActivePutBody
    [putActActive "First", putActActive "Second"] bulkReplacedDb rfl rfl
  exact h.trans (by decide)

theorem applyUpdate_id (ud : UpdateData) (a : StoredActivity) :
    (applyUpdate ud a).id = a.id := rfl

theorem buildUpdateData_ok_isActive (body : PatchBody) (ud : UpdateData)
    (h : buildUpdateData body = Except.ok ud) :
    ud.isActive = body.isActive.map (fun b => b == true) := by
  unfold buildUpdateData at h
  split at h
  · exact Except.noConfusion h
  · exact Except.noConfusion h
  · injection h with h2
    rw [← h2]

theorem filter_target_of_nodup (acts : List StoredActivity) (aid e : String)
    (x : StoredActivity)
    (hnd : (acts.map (fun a => a.id)).Nodup)
    (hfind : acts.find? (fun a => a.id == aid) = some x)
    (hxe : x.eventId = e) :
    acts.filter (fun a => a.id == aid && a.eventId == e) = [x] := by
  induction acts with
  | nil => exact Option.noConfusion hfind
  | cons a rest ih =>
    rw [List.map_cons, List.nodup_cons] at hnd
    obtain ⟨hna, hnr⟩ := hnd
    by_cases hpa : (a.id == aid) = true
    · rw [List.find?_cons_of_pos rest hpa] at hfind
      injection hfind with hax
      subst hax
      have haid : a.id = aid := eq_of_beq hpa
      rw [List.filter_cons, if_pos (by simp [hpa, hxe])]
      have hrest : rest.filter (fun b => b.id == aid && b.eventId == e) = [] := by
        rw [List.filter_eq_nil_iff]
        intro b hb
        have hbne : b.id ≠ aid := by
          intro hbid
          refine hna ?_
          rw [haid, ← hbid]
          exact List.mem_map_of_mem (fun c => c.id) hb
        simp [hbne]
      rw [hrest]
    · rw [List.find?_cons_of_neg rest (by simp [hpa])] at hfind
      rw [List.filter_cons, if_neg (by simp [hpa])]
      exact ih hnr hfind

/-- C1: a committed partial update whose supplied fields include
`isActive = true` leaves the target as the unique Running activity of the
event — the same transaction deactivates every other active activity of
the event, so filtering the committed store for the event's active
activities yields exactly the target id. -/
theorem patch_setActive_unique_running
    (db : Db) (u e aid : String) (body : PatchBody) (db2 : Db)
    (hnd : (db.activities.map (fun a => a.id)).Nodup)
    (hactive : body.isActive = some true)
    (hok : patchActivity db u e aid body = Except.ok db2) :
    (db2.activities.filter (fun a => a.eventId == e && a.isActive)).map (fun a => a.id)
      = [aid] := by
  unfold patchActivity at hok
  cases hfe : db.events.find? (fun v => v.id == e) with
  | none =>
    simp only [hfe] at hok
    exact Except.noConfusion hok
  | some ev =>
    simp only [hfe] at hok
    by_cases hu : ev.userId ≠ u
    · rw [if_pos hu] at hok
      exact Except.noConfusion hok
    · rw [if_neg hu] at hok
      cases hfa : db.activities.find? (fun a => a.id == aid) with
      | none =>
        simp only [hfa] at hok
        exact Except.noConfusion hok
      | some x =>
        simp only [hfa] at hok
        by_cases hx : x.eventId ≠ e
        · rw [if_pos hx] at hok
          exact Except.noConfusion hok
        · rw [if_neg hx] at hok
          have hxe : x.eventId = e := not_not.1 hx
          cases hbu : buildUpdateData body with
          | error er =>
            rw [hbu] at hok
            exact Except.noConfusion hok
          | ok ud =>
            rw [hbu] at hok
            injection hok with h2
            have hud : ud.isActive = some true := by
              rw [buildUpdateData_ok_isActive body ud hbu, hactive]
              rfl
            have hbeq : (x.id == aid) = true := by
              have h := List.find?_some hfa
              exact h
            rw [← h2]
            show ((patchedActivities db.activities e aid body ud).filter
              (fun a => a.eventId == e && a.isActive)).map (fun a => a.id) = [aid]
            unfold patchedActivities demoteOthers
            rw [if_pos hactive, List.map_map]
            rw [List.filter_map]
            have hcongr : ∀ a ∈ db.activities,
                ((fun b => b.eventId == e && b.isActive) ∘
                  ((fun b => if (b.id == aid) = true then applyUpdate ud b else b) ∘
                   (fun b => if (b.eventId == e && b.id != aid && b.isActive) = true then
                      { b with isActive := false } else b))) a
                = (fun b => b.id == aid && b.eventId == e) a := by
              intro a _
              by_cases hid : (a.id == aid) = true
              · simp [Function.comp, hid, bne, applyUpdate, hud]
              · cases hev : (a.eventId == e) <;> cases hac : a.isActive <;>
                  simp [Function.comp, hid, hev, hac, bne]
            rw [List.filter_congr hcongr,
              filter_target_of_nodup db.activities aid e x hnd hfa hxe]
            simp only [List.map_map, List.map_cons, List.map_nil, Function.comp_apply]
            rw [show (if (x.eventId == e && x.id != aid && x.isActive) = true then
                { x with isActive := false } else x) = x from by simp [bne, hbeq]]
            rw [show (if (x.id == aid) = true then applyUpdate ud x else x)
                = applyUpdate ud x from if_pos hbeq]
            rw [applyUpdate_id, eq_of_beq hbeq]

/-- Witness for C1: starting `a1` on the sample store demotes the running
`a2` and leaves `a1` as the unique running activity of `e1`. -/
theorem patch_setActive_unique_running_witness :
    (sampleDb.activities.map (fun a => a.id)).Nodup ∧
    (sampleStartDb.activities.filter (fun a => a.eventId == "e1" && a.isActive)).map
        (fun a => a.id) = ["a1"] := by
  exact ⟨by decide, patch_setActive_unique_running sampleDb "u1" "e1" "a1"
    startPatchBody sampleStartDb (by decide) rfl rfl⟩

end EventChron
